import Mathlib

/-!
# Verification of the dashboard's Section View Builder

A shallow embedding of the data-shaping core of the two dashboard scripts
(`xai_powered_analytics_dashboard.py` and its near-duplicate): a CSV is
loaded into a table, and each dashboard section filters the table by the
`"Component"` column, drops rows with missing required fields, and
optionally pivots the result for a chart.

The embedding mirrors the pandas semantics actually used by the source:

* `df[df["Component"] == label]` — row filter by cell equality; raises
  `KeyError` if the column is absent from the frame;
* `df.dropna(subset=fields)` — drops rows with a missing value in any of
  `fields`; raises `KeyError` if any field is not a column of the frame
  (this happens before any row is inspected, even on an empty frame);
* `df.pivot_table(values=v, index=r, aggfunc='first')` — groups rows by
  their non-missing `r` cell and takes the first non-missing `v` cell of
  each group, in frame order;
* `df.pivot_table(index=r, columns=c, aggfunc='size')` — a 2-D count
  table over the observed `r` values × observed `c` values; a combination
  that occurs in no row yields a missing (NaN) cell, not a zero;
* `st.slider(label, min_value=0, max_value=100, value=int(default))` —
  the seed handed to the widget is `int(default)`, truncation toward
  zero, with no clamping applied by the script.

None of the pandas calls in the source pass `inplace=True`; each returns
a fresh frame and leaves its receiver untouched.
-/

/-- A cell value of the loaded table: CSV cells are strings or numbers.
A missing cell (pandas NaN) is represented as `none` at the row level. -/
inductive Value where
  | str : String → Value
  | num : Rat → Value
deriving DecidableEq, Repr

/-- A row of the table: one optional cell per column, aligned with the
dataset's column list by position. `none` is a missing value (NaN). -/
abbrev Row := List (Option Value)

/-- The loaded Dataset: an ordered column header plus an ordered sequence
of rows, exactly the shape `pd.read_csv` produces. -/
structure Dataset where
  cols : List String
  rows : List Row
deriving DecidableEq, Repr

/-- Position of a column name in the header, if present. -/
def colIdx (cols : List String) (f : String) : Option Nat :=
  cols.findIdx? (fun c => c == f)

/-- The cell accessor `getCell cols r f`: the cell of row `r` in column `f`; `none` both
when the column is absent and when the stored cell is missing (NaN). -/
def getCell (cols : List String) (r : Row) (f : String) : Option Value :=
  match colIdx cols f with
  | none => none
  | some i => r.getD i none

/-- The error taxonomy of the spec that the code can actually raise at
the view-building step: pandas `KeyError` on a column absent from the
frame, i.e. the spec's `SchemaMismatch`. -/
inductive DashError where
  | schemaMismatch : DashError
deriving DecidableEq, Repr

/-- The operation `dropnaSubset d req` — `d.dropna(subset=req)`: raises `KeyError`
(the spec's `SchemaMismatch`) when some field of `req` is not a column of
the frame — pandas validates the subset against the columns before
looking at any row, so an absent column errors even on an empty frame —
and otherwise keeps, in frame order, the rows whose `req` cells are all
non-missing. -/
def dropnaSubset (d : Dataset) (req : List String) :
    Except DashError (List Row) :=
  if req.all (fun f => decide (f ∈ d.cols)) then
    .ok (d.rows.filter (fun r => req.all (fun f => (getCell d.cols r f).isSome)))
  else .error .schemaMismatch

/-- The operation `selectSection d label req` — the section-view builder, translated
from the pattern used by every section of the main script:
`data[data["Component"] == label].dropna(subset=req)`.
`data["Component"]` raises `KeyError` when `"Component"` is not a column;
the boolean-mask selection keeps the rows whose `Component` cell equals
the label (a fresh frame with the same columns), and `dropna` then acts
as in `dropnaSubset`. -/
def selectSection (d : Dataset) (label : String) (req : List String) :
    Except DashError (List Row) :=
  if "Component" ∈ d.cols then
    dropnaSubset
      ⟨d.cols, d.rows.filter
        (fun r => decide (getCell d.cols r "Component" = some (Value.str label)))⟩
      req
  else .error .schemaMismatch

/-- Section 1 of the main script:
`data[data["Component"] == "Model Interpretability"].dropna(subset=["Feature", "SHAP Value", "LIME Weight"])`. -/
def model_data (d : Dataset) : Except DashError (List Row) :=
  selectSection d "Model Interpretability" ["Feature", "SHAP Value", "LIME Weight"]

/-- Section 2 of the main script:
`data[data["Component"] == "Data Sources"].dropna(subset=["Source", "Percentage Contribution (%)"])`. -/
def source_data (d : Dataset) : Except DashError (List Row) :=
  selectSection d "Data Sources" ["Source", "Percentage Contribution (%)"]

/-- Section 3 of the main script:
`data[data["Component"] == "Key Metrics"].dropna(subset=["Model", "Accuracy (%)", "Compliance Rate (%)"])`. -/
def metrics_data (d : Dataset) : Except DashError (List Row) :=
  selectSection d "Key Metrics" ["Model", "Accuracy (%)", "Compliance Rate (%)"]

/-- Section 4 of the main script:
`data[data["Component"] == "Real-World Scenario"].dropna(subset=["Risk Factor", "Risk Score Contribution (%)", "Correlation"])`. -/
def scenario_data (d : Dataset) : Except DashError (List Row) :=
  selectSection d "Real-World Scenario"
    ["Risk Factor", "Risk Score Contribution (%)", "Correlation"]

/-- Section 1 of the near-duplicate script (`_1.py`):
`data[data["Component"] == "Model Interpretability"]` — the Component
mask with no `dropna`, i.e. `selectSection` with no required fields. -/
def legacy_model_data (d : Dataset) : Except DashError (List Row) :=
  selectSection d "Model Interpretability" []

/-- Section 3 of the near-duplicate script (`_1.py`):
`data.dropna(subset=["Accuracy", "Compliance Rate"])` — note: no
Component mask in that script. -/
def legacy_metrics_data (d : Dataset) : Except DashError (List Row) :=
  dropnaSubset d ["Accuracy", "Compliance Rate"]

/-- Section 4 (heatmap input) of the near-duplicate script (`_1.py`):
`data.dropna(subset=["Risk Factor", "Correlation"])` — again with no
Component mask. -/
def legacy_scenario_data (d : Dataset) : Except DashError (List Row) :=
  dropnaSubset d ["Risk Factor", "Correlation"]

/-- A table read by key, as the rendering layer reads a pandas pivot
table: the value stored at the first entry whose key matches. -/
def tlookup {α β : Type} [DecidableEq α] (t : List (α × β)) (k : α) : Option β :=
  (t.find? (fun p => decide (p.1 = k))).map Prod.snd

/-- The operation `pivotFirst cols view rf vf` —
`view.pivot_table(values=vf, index=rf, aggfunc='first')`: rows whose
`rf` cell is missing are dropped (`pivot_table`'s default `dropna` on
keys), the remaining rows are grouped by their `rf` cell, and each group
yields the first non-missing `vf` cell in frame order (pandas `'first'`
skips NaN), `none` when the whole group is missing. pandas sorts the
resulting index; the embedding enumerates the observed keys in a fixed
canonical order (`List.dedup`) instead — a permutation of the sorted
index carrying the same key-to-value mapping. -/
def pivotFirst (cols : List String) (view : List Row) (rf vf : String) :
    List (Value × Option Value) :=
  ((view.filterMap (fun r => getCell cols r rf)).dedup).map
    (fun k => (k,
      ((view.filter (fun r => decide (getCell cols r rf = some k))).filterMap
        (fun r => getCell cols r vf)).head?))

/-- The operation `pivotCount cols view rf cf` —
`view.pivot_table(index=rf, columns=cf, aggfunc="size")`: rows with a
missing `rf` or `cf` cell are dropped, and the table ranges over the
observed `rf` values × the observed `cf` values (pandas sorts both
axes; the embedding enumerates each axis in a fixed canonical order,
`List.dedup`, a permutation carrying the same per-combination cells); a
combination occurring
in `n > 0` rows yields the cell `n`, and a combination occurring in no
row yields a missing (NaN) cell, `none` — `fill_value` is not passed in
the source, so absent combinations are not zero-filled.
`keyedPairs` is the key-extraction step: the (row value, col value)
pair of each row whose two key cells are present. -/
def keyedPairs (cols : List String) (view : List Row) (rf cf : String) :
    List (Value × Value) :=
  view.filterMap (fun r =>
    match getCell cols r rf, getCell cols r cf with
    | some a, some b => some (a, b)
    | _, _ => none)

/-- The 2-D count table itself; see `keyedPairs`. -/
def pivotCount (cols : List String) (view : List Row) (rf cf : String) :
    List ((Value × Value) × Option Nat) :=
  ((((keyedPairs cols view rf cf).map Prod.fst).dedup).map (fun a =>
    (((keyedPairs cols view rf cf).map Prod.snd).dedup).map (fun b =>
      ((a, b),
        if (keyedPairs cols view rf cf).countP (fun p => decide (p = (a, b))) = 0 then none
        else some ((keyedPairs cols view rf cf).countP
          (fun p => decide (p = (a, b)))))))).flatten

/-- Total of a pivot-count table, reading a missing (NaN) cell as 0 —
how pandas `DataFrame.sum` totals a frame with NaN entries. -/
def cellSum (t : List ((Value × Value) × Option Nat)) : Nat :=
  (t.map (fun c => c.2.getD 0)).sum

/-- Python's `int()` on a rational: truncation toward zero. -/
def pyInt (q : Rat) : Int :=
  if q < 0 then -⌊-q⌋ else ⌊q⌋

/-- Python's `int()` on a table cell: a number is truncated toward zero,
a string is parsed as a decimal integer (raising, i.e. `none`, when it
does not parse). -/
def intOfCell : Value → Option Int
  | .num q => some (pyInt q)
  | .str s => s.toInt?

/-- The interactive-scenario seeding loop of
`real_world_scenario_section`: `factors = view["Risk Factor"].tolist()`
and `default_values = view["Risk Score Contribution (%)"].tolist()` are
the two columns of the view in frame order, zipped; each factor's slider
is created with `st.slider(factor, min_value=0, max_value=100,
value=int(default))`. The embedding records, per row, the factor cell
and the `value` argument handed to the widget — `int(default)` exactly;
the script applies no clamping. -/
def sliderSeeds (cols : List String) (view : List Row) :
    List (Option Value × Option Int) :=
  view.map (fun r =>
    (getCell cols r "Risk Factor",
     (getCell cols r "Risk Score Contribution (%)").bind intOfCell))

/-- The slider seeds produced by section 4 of the main script for a
loaded dataset: the scenario view's factor/default pairs. -/
def scenarioSeeds (d : Dataset) :
    Except DashError (List (Option Value × Option Int)) :=
  (scenario_data d).map (fun v => sliderSeeds d.cols v)

/-- The pie-chart labels of `data_sources_section`:
`labels = source_data["Source"]`, the `"Source"` column of the filtered
view in frame order. -/
def pieLabels (d : Dataset) : Except DashError (List (Option Value)) :=
  (source_data d).map (fun v => v.map (fun r => getCell d.cols r "Source"))

/-- The pie-chart sizes of `data_sources_section`:
`sizes = source_data["Percentage Contribution (%)"]`, the same view's
contribution column in frame order. -/
def pieSizes (d : Dataset) : Except DashError (List (Option Value)) :=
  (source_data d).map (fun v =>
    v.map (fun r => getCell d.cols r "Percentage Contribution (%)"))

/-- One section render as a state transformer on the shared frame: it
records the table the section observed and the view it built, and
returns the frame as the section leaves it. The source calls only
`df[mask]` and `DataFrame.dropna`, never with `inplace=True`; both
allocate fresh frames, so the frame after the call is the frame that was
passed in. -/
def sectionPass (d : Dataset) (label : String) (req : List String) :
    (Dataset × Except DashError (List Row)) × Dataset :=
  ((d, selectSection d label req), d)

/-- The render pipeline of `main`: the four sections run in order on the one
loaded frame, each receiving the frame left by its predecessor. Returns
the per-section observations and the frame after the full render. -/
def renderDashboard (d : Dataset) :
    List (Dataset × Except DashError (List Row)) × Dataset :=
  let (o1, d1) := sectionPass d "Model Interpretability"
    ["Feature", "SHAP Value", "LIME Weight"]
  let (o2, d2) := sectionPass d1 "Data Sources"
    ["Source", "Percentage Contribution (%)"]
  let (o3, d3) := sectionPass d2 "Key Metrics"
    ["Model", "Accuracy (%)", "Compliance Rate (%)"]
  let (o4, d4) := sectionPass d3 "Real-World Scenario"
    ["Risk Factor", "Risk Score Contribution (%)", "Correlation"]
  ([o1, o2, o3, o4], d4)

-- scratch: check kernel evaluation on concrete string-keyed data
def exSmallD : Dataset :=
  { cols := ["Component", "X"]
    rows := [[some (Value.str "A"), some (Value.num 1)],
             [some (Value.str "A"), none],
             [some (Value.str "B"), some (Value.num 2)]] }

example : selectSection exSmallD "A" ["X"] =
    .ok [[some (Value.str "A"), some (Value.num 1)]] := by rfl

example : selectSection exSmallD "A" ["Y"] = .error .schemaMismatch := by rfl

-- scratch pivot checks
def exPivotD : Dataset :=
  { cols := ["Risk Factor", "Correlation"]
    rows := [[some (Value.str "A"), some (Value.str "X")],
             [some (Value.str "A"), some (Value.str "Y")],
             [some (Value.str "B"), some (Value.str "X")]] }

example : pivotCount exPivotD.cols exPivotD.rows "Risk Factor" "Correlation" =
    [((Value.str "A", Value.str "Y"), some 1),
     ((Value.str "A", Value.str "X"), some 1),
     ((Value.str "B", Value.str "Y"), none),
     ((Value.str "B", Value.str "X"), some 1)] := by rfl

example : cellSum (pivotCount exPivotD.cols exPivotD.rows "Risk Factor" "Correlation") = 3 := by rfl

example : pivotFirst exPivotD.cols exPivotD.rows "Risk Factor" "Correlation" =
    [(Value.str "A", some (Value.str "X")), (Value.str "B", some (Value.str "X"))] := by rfl

example : pyInt 135 = 135 := by decide

example : pyInt (mkRat 271 2) = 135 := by decide

example : pyInt (mkRat (-271) 2) = -135 := by decide

/-! ## Characterization of the section-view builder -/

/-- The membership predicate of the Component mask, named for reuse. -/
def componentIs (cols : List String) (L : String) (r : Row) : Bool :=
  decide (getCell cols r "Component" = some (Value.str L))

/-- The membership predicate of the `dropna` step, named for reuse. -/
def hasFields (cols : List String) (F : List String) (r : Row) : Bool :=
  F.all (fun f => (getCell cols r f).isSome)

theorem selectSection_eq_filter {d : Dataset} {L : String} {F : List String}
    (hc : "Component" ∈ d.cols) (hf : ∀ f ∈ F, f ∈ d.cols) :
    selectSection d L F =
      .ok ((d.rows.filter (componentIs d.cols L)).filter (hasFields d.cols F)) := by
  unfold selectSection dropnaSubset componentIs hasFields
  have ha : F.all (fun f => decide (f ∈ d.cols)) = true := by
    simp only [List.all_eq_true, decide_eq_true_eq]
    exact hf
  simp [hc, ha]

theorem selectSection_ok_elim {d : Dataset} {L : String} {F : List String}
    {out : List Row} (h : selectSection d L F = .ok out) :
    out = (d.rows.filter (componentIs d.cols L)).filter (hasFields d.cols F) := by
  unfold selectSection dropnaSubset componentIs hasFields at *
  by_cases hc : "Component" ∈ d.cols
  · simp only [hc, if_pos] at h
    by_cases ha : F.all (fun f => decide (f ∈ d.cols)) = true
    · simp only [ha, if_pos, Except.ok.injEq] at h
      exact h.symm
    · simp [ha] at h
  · simp [hc] at h

/-! ## Concrete data used by the witnesses -/

def exR0 : Row :=
  [some (Value.str "Data Sources"), some (Value.str "Bank Records"), some (Value.num 40)]

def exR1 : Row :=
  [some (Value.str "Data Sources"), none, some (Value.num 30)]

def exR2 : Row :=
  [some (Value.str "Key Metrics"), none, none]

def exD : Dataset :=
  ⟨["Component", "Source", "Percentage Contribution (%)"], [exR0, exR1, exR2]⟩

def exD2 : Dataset :=
  ⟨["Component", "Source", "Percentage Contribution (%)"], [exR2]⟩

/-! ## Claims about `selectSection` -/

/-- C1: every record of `selectSection(D, L, F)` has a non-missing value
for each field of `F` (soundness of the missing-value drop), and every
record of `D` whose `Component` equals `L` and whose `F` cells are all
non-missing appears in the result (completeness). -/
theorem selectSection_sound_complete (d : Dataset) (L : String) (F : List String)
    (out : List Row) (h : selectSection d L F = .ok out) :
    (∀ r ∈ out, ∀ f ∈ F, (getCell d.cols r f).isSome) ∧
    (∀ r ∈ d.rows, getCell d.cols r "Component" = some (Value.str L) →
      (∀ f ∈ F, (getCell d.cols r f).isSome) → r ∈ out) := by
  have h' := selectSection_ok_elim h
  subst h'
  constructor
  · intro r hr f hf
    have h2 := (List.mem_filter.mp hr).2
    simp only [hasFields, List.all_eq_true] at h2
    exact h2 f hf
  · intro r hr hcomp hflds
    refine List.mem_filter.mpr ⟨List.mem_filter.mpr ⟨hr, ?_⟩, ?_⟩
    · simp [componentIs, hcomp]
    · simp only [hasFields, List.all_eq_true]
      exact hflds

theorem selectSection_sound_complete_witness :
    (∀ r ∈ [exR0], ∀ f ∈ ["Source"], (getCell exD.cols r f).isSome) ∧
    (∀ r ∈ exD.rows, getCell exD.cols r "Component" = some (Value.str "Data Sources") →
      (∀ f ∈ ["Source"], (getCell exD.cols r f).isSome) → r ∈ [exR0]) :=
  selectSection_sound_complete exD "Data Sources" ["Source"] [exR0] (by rfl)

/-- C2: with no required fields, `selectSection(D, L, [])` returns at
most `|D|` records, all of whose `Component` cells equal `L`. -/
theorem selectSection_label_and_card (d : Dataset) (L : String) (out : List Row)
    (h : selectSection d L [] = .ok out) :
    out.length ≤ d.rows.length ∧
    ∀ r ∈ out, getCell d.cols r "Component" = some (Value.str L) := by
  have h' := selectSection_ok_elim h
  subst h'
  constructor
  · exact le_trans (List.length_filter_le _ _) (List.length_filter_le _ _)
  · intro r hr
    have h2 := (List.mem_filter.mp (List.mem_filter.mp hr).1).2
    simpa [componentIs] using h2

theorem selectSection_label_and_card_witness :
    ([exR0, exR1] : List Row).length ≤ exD.rows.length ∧
    ∀ r ∈ [exR0, exR1], getCell exD.cols r "Component" = some (Value.str "Data Sources") :=
  selectSection_label_and_card exD "Data Sources" [exR0, exR1] (by rfl)

/-- C4: if some required field names a column entirely absent from the
Dataset, `selectSection` fails with `SchemaMismatch` (pandas `KeyError`
from `dropna(subset=...)`) instead of returning any view. -/
theorem selectSection_schemaMismatch_on_absent_column
    (d : Dataset) (L : String) (F : List String) (f : String)
    (hf : f ∈ F) (habs : f ∉ d.cols) :
    selectSection d L F = .error .schemaMismatch := by
  unfold selectSection dropnaSubset
  have ha : (F.all (fun g => decide (g ∈ d.cols))) = false := by
    cases hall : F.all (fun g => decide (g ∈ d.cols)) with
    | false => rfl
    | true =>
      exfalso
      exact habs (of_decide_eq_true (List.all_eq_true.mp hall f hf))
  by_cases hc : "Component" ∈ d.cols
  · simp [hc, ha]
  · simp [hc]

theorem selectSection_schemaMismatch_on_absent_column_witness :
    selectSection exD "Data Sources" ["Risk Factor"] = .error .schemaMismatch :=
  selectSection_schemaMismatch_on_absent_column exD "Data Sources" ["Risk Factor"]
    "Risk Factor" (by decide) (by decide)

/-- C7: when no record's `Component` equals the label (and the section's
columns do exist), `selectSection` returns the empty view rather than an
error, and for the Data Sources section the chart inputs computed from
the empty view are the well-defined empty label and size sequences. -/
theorem selectSection_empty_on_no_match (d : Dataset) (L : String) (F : List String)
    (hc : "Component" ∈ d.cols) (hf : ∀ f ∈ F, f ∈ d.cols)
    (hnone : ∀ r ∈ d.rows, ¬ getCell d.cols r "Component" = some (Value.str L)) :
    selectSection d L F = .ok [] ∧
    (L = "Data Sources" → F = ["Source", "Percentage Contribution (%)"] →
      pieLabels d = .ok [] ∧ pieSizes d = .ok []) := by
  have hmask : d.rows.filter (componentIs d.cols L) = [] := by
    rw [List.filter_eq_nil_iff]
    intro r hr
    simp [componentIs, hnone r hr]
  have hsel : selectSection d L F = .ok [] := by
    rw [selectSection_eq_filter hc hf, hmask]
    rfl
  refine ⟨hsel, ?_⟩
  rintro rfl rfl
  unfold pieLabels pieSizes source_data
  rw [hsel]
  exact ⟨rfl, rfl⟩

theorem selectSection_empty_on_no_match_witness :
    selectSection exD2 "Data Sources" ["Source", "Percentage Contribution (%)"] = .ok [] ∧
    ("Data Sources" = "Data Sources" →
      ["Source", "Percentage Contribution (%)"] = ["Source", "Percentage Contribution (%)"] →
      pieLabels exD2 = .ok [] ∧ pieSizes exD2 = .ok []) :=
  selectSection_empty_on_no_match exD2 "Data Sources" ["Source", "Percentage Contribution (%)"]
    (by decide) (by decide) (by decide)

/-- C8: the records of `selectSection(D, L, F)` form a subsequence of
`D`'s records — the filter is stable and order-preserving. -/
theorem selectSection_order_preserving (d : Dataset) (L : String) (F : List String)
    (out : List Row) (h : selectSection d L F = .ok out) :
    out.Sublist d.rows := by
  have h' := selectSection_ok_elim h
  subst h'
  exact (List.filter_sublist _).trans (List.filter_sublist _)

theorem selectSection_order_preserving_witness :
    ([exR0] : List Row).Sublist exD.rows :=
  selectSection_order_preserving exD "Data Sources" ["Source"] [exR0] (by rfl)

/-- C9: the render pipeline never mutates the loaded Dataset — every
section-view operation leaves the frame it was handed unchanged, so all
four section renders observe the very same table. -/
theorem dataset_unmutated_across_render (d : Dataset) :
    (renderDashboard d).2 = d ∧
    (renderDashboard d).1.map Prod.fst = [d, d, d, d] :=
  ⟨rfl, rfl⟩

/-- C10: the pie-chart labels and sizes of the Data Sources section are
projections of the same filtered view: they have the view's length, and
position `i` of both comes from the view's record `i`. -/
theorem pie_labels_sizes_aligned (d : Dataset) (v : List Row)
    (h : source_data d = .ok v) :
    ∃ ls ss, pieLabels d = .ok ls ∧ pieSizes d = .ok ss ∧
      ls.length = v.length ∧ ss.length = v.length ∧
      ∀ i : Nat, ls[i]? = (v[i]?).map (fun r => getCell d.cols r "Source") ∧
        ss[i]? = (v[i]?).map (fun r => getCell d.cols r "Percentage Contribution (%)") := by
  refine ⟨v.map (fun r => getCell d.cols r "Source"),
          v.map (fun r => getCell d.cols r "Percentage Contribution (%)"),
          ?_, ?_, List.length_map .., List.length_map .., ?_⟩
  · unfold pieLabels
    rw [h]
    rfl
  · unfold pieSizes
    rw [h]
    rfl
  · intro i
    exact ⟨List.getElem?_map .., List.getElem?_map ..⟩

/-! ## Helper lemmas for the pivot operations -/

theorem find?_eq_head?_filter {α : Type} (p : α → Bool) (l : List α) :
    l.find? p = (l.filter p).head? := by
  induction l with
  | nil => rfl
  | cons a t ih =>
    cases h : p a
    · simp only [List.find?_cons, h, List.filter_cons, cond_false]
      exact ih
    · simp [List.find?_cons, h, List.filter_cons]

theorem length_filterMap_of_all_some {α β : Type} (f : α → Option β) (l : List α)
    (h : ∀ a ∈ l, (f a).isSome) : (l.filterMap f).length = l.length := by
  induction l with
  | nil => rfl
  | cons a t ih =>
    obtain ⟨b, hb⟩ := Option.isSome_iff_exists.mp (h a (List.mem_cons_self a t))
    simp [List.filterMap_cons, hb, ih (fun x hx => h x (List.mem_cons_of_mem _ hx))]

theorem tlookup_map_self {α β : Type} [DecidableEq α] (g : α → β) (K : List α)
    (k : α) (hk : k ∈ K) :
    tlookup (K.map (fun x => (x, g x))) k = some (g k) := by
  induction K with
  | nil => cases hk
  | cons a t ih =>
    by_cases h : a = k
    · subst h
      simp [tlookup, List.find?_cons]
    · have hstep : tlookup ((a :: t).map (fun x => (x, g x))) k
          = tlookup (t.map (fun x => (x, g x))) k := by
        simp [tlookup, List.find?_cons, h]
      rw [hstep]
      rcases List.mem_cons.mp hk with h' | h'
      · exact absurd h'.symm h
      · exact ih h'

theorem sum_length_filter_key {α κ : Type} [DecidableEq κ] (key : α → κ) :
    ∀ (K : List κ) (l : List α), K.Nodup → (∀ a ∈ l, key a ∈ K) →
      (K.map (fun x => (l.filter (fun a => decide (key a = x))).length)).sum
        = l.length := by
  intro K
  induction K with
  | nil =>
    intro l _ hall
    cases l with
    | nil => rfl
    | cons a t => exact absurd (hall a (List.mem_cons_self a t)) (List.not_mem_nil _)
  | cons x K' ih =>
    intro l hnd hall
    have hx : x ∉ K' := (List.nodup_cons.mp hnd).1
    have hnd' : K'.Nodup := (List.nodup_cons.mp hnd).2
    have hmap : K'.map (fun y => (l.filter (fun a => decide (key a = y))).length)
        = K'.map (fun y =>
            ((l.filter (fun a => !(decide (key a = x)))).filter
              (fun a => decide (key a = y))).length) := by
      apply List.map_congr_left
      intro y hy
      have hyx : y ≠ x := fun h => hx (h ▸ hy)
      congr 1
      rw [List.filter_filter]
      apply List.filter_congr
      intro a _
      by_cases hk : key a = y
      · simp [hk, hyx]
      · simp [hk]
    have hall' : ∀ a ∈ l.filter (fun a => !(decide (key a = x))), key a ∈ K' := by
      intro a ha
      obtain ⟨hal, hap⟩ := List.mem_filter.mp ha
      have hne : ¬ key a = x := by
        simpa using hap
      rcases List.mem_cons.mp (hall a hal) with h | h
      · exact absurd h hne
      · exact h
    rw [List.map_cons, List.sum_cons, hmap,
      ih (l.filter (fun a => !(decide (key a = x)))) hnd' hall']
    exact (List.length_eq_length_filter_add (fun a => decide (key a = x))).symm

/-- C6: `pivotFirst` is deterministic on a fixed view, and (on a view
whose value cells are all present, as the scenario view guarantees) it
maps each observed key to the `valueField` cell of the first record of
the view bearing that key — not an aggregate over the matching records. -/
theorem pivotFirst_deterministic_first_per_key
    (cols : List String) (view : List Row) (rf vf : String)
    (hv : ∀ r ∈ view, (getCell cols r vf).isSome) :
    pivotFirst cols view rf vf = pivotFirst cols view rf vf ∧
    ∀ (k : Value) (r : Row),
      view.find? (fun s => decide (getCell cols s rf = some k)) = some r →
      tlookup (pivotFirst cols view rf vf) k = some (getCell cols r vf) := by
  refine ⟨rfl, ?_⟩
  intro k r hfind
  have hrmem : r ∈ view := List.mem_of_find?_eq_some hfind
  have hp := List.find?_some (p := fun s => decide (getCell cols s rf = some k)) hfind
  have hrk : getCell cols r rf = some k := of_decide_eq_true hp
  have hkmem : k ∈ (view.filterMap (fun s => getCell cols s rf)).dedup :=
    List.mem_dedup.mpr (List.mem_filterMap.mpr ⟨r, hrmem, hrk⟩)
  unfold pivotFirst
  rw [tlookup_map_self _ _ _ hkmem]
  congr 1
  have hfl : (view.filter (fun s => decide (getCell cols s rf = some k))).head?
      = some r := by
    rw [← find?_eq_head?_filter]
    exact hfind
  obtain ⟨t, ht⟩ := List.head?_eq_some_iff.mp hfl
  rw [ht]
  obtain ⟨v, hvv⟩ := Option.isSome_iff_exists.mp (hv r hrmem)
  simp [List.filterMap_cons, hvv]

theorem pivotFirst_deterministic_first_per_key_witness :
    tlookup (pivotFirst exPivotD.cols exPivotD.rows "Risk Factor" "Correlation")
      (Value.str "A")
      = some (getCell exPivotD.cols [some (Value.str "A"), some (Value.str "X")]
          "Correlation") :=
  (pivotFirst_deterministic_first_per_key exPivotD.cols exPivotD.rows
    "Risk Factor" "Correlation" (by decide)).2 (Value.str "A")
    [some (Value.str "A"), some (Value.str "X")] (by rfl)

/-- C5 counterexample: on a view with rows keyed (A,X), (A,Y), (B,X),
the combination (B,Y) is absent; the pivot table carries it as a missing
(NaN) cell — `none`, not a zero count — because the source never passes
`fill_value` to `pivot_table`. -/
theorem pivotCount_absent_combo_missing_cell :
    tlookup (pivotCount exPivotD.cols exPivotD.rows "Risk Factor" "Correlation")
      (Value.str "B", Value.str "Y") = some none ∧
    tlookup (pivotCount exPivotD.cols exPivotD.rows "Risk Factor" "Correlation")
      (Value.str "B", Value.str "Y") ≠ some (some 0) :=
  ⟨by rfl, by intro h; exact Option.noConfusion (Option.some.inj h)⟩

theorem countP_pair_eq_filter_filter (keyed : List (Value × Value)) (a b : Value) :
    keyed.countP (fun p => decide (p = (a, b)))
      = ((keyed.filter (fun p => decide (p.1 = a))).filter
          (fun p => decide (p.2 = b))).length := by
  rw [List.countP_eq_length_filter, List.filter_filter]
  congr 1
  apply List.filter_congr
  intro p _
  cases p with
  | mk p1 p2 =>
    by_cases h1 : p1 = a <;> by_cases h2 : p2 = b <;> simp [h1, h2]

theorem pivot_inner_sum_eq (keyed : List (Value × Value)) (a : Value) :
    (((keyed.map Prod.snd).dedup).map (fun b =>
      (if keyed.countP (fun p => decide (p = (a, b))) = 0 then (none : Option Nat)
       else some (keyed.countP (fun p => decide (p = (a, b))))).getD 0)).sum
    = (keyed.filter (fun p => decide (p.1 = a))).length := by
  have hgetD : ∀ n : Nat,
      (if n = 0 then (none : Option Nat) else some n).getD 0 = n := by
    intro n
    by_cases hn : n = 0 <;> simp [hn]
  have hmap : ((keyed.map Prod.snd).dedup).map (fun b =>
      (if keyed.countP (fun p => decide (p = (a, b))) = 0 then (none : Option Nat)
       else some (keyed.countP (fun p => decide (p = (a, b))))).getD 0)
      = ((keyed.map Prod.snd).dedup).map (fun b =>
          ((keyed.filter (fun p => decide (p.1 = a))).filter
            (fun p => decide (p.2 = b))).length) := by
    apply List.map_congr_left
    intro b _
    rw [hgetD, countP_pair_eq_filter_filter]
  rw [hmap]
  exact sum_length_filter_key (Prod.snd (α := Value) (β := Value))
    ((keyed.map Prod.snd).dedup)
    (keyed.filter (fun p => decide (p.1 = a)))
    (List.nodup_dedup _)
    (fun p hp => List.mem_dedup.mpr
      (List.mem_map_of_mem Prod.snd (List.mem_filter.mp hp).1))

theorem pivot_outer_sum_eq (keyed : List (Value × Value)) :
    (((keyed.map Prod.fst).dedup).map (fun a =>
      (keyed.filter (fun p => decide (p.1 = a))).length)).sum = keyed.length :=
  sum_length_filter_key (Prod.fst (α := Value) (β := Value))
    ((keyed.map Prod.fst).dedup) keyed (List.nodup_dedup _)
    (fun _ hp => List.mem_dedup.mpr (List.mem_map_of_mem Prod.fst hp))

/-- C5 (amended): the cells of `pivotCount`, each missing (NaN) cell
read as zero — which is how pandas totals a frame — sum to the number of
records of the view, provided every record of the view carries both key
cells (true of the scenario view, which dropped rows missing either). -/
theorem pivotCount_cellSum_eq_length (cols : List String) (view : List Row)
    (rf cf : String)
    (h : ∀ r ∈ view, (getCell cols r rf).isSome ∧ (getCell cols r cf).isSome) :
    cellSum (pivotCount cols view rf cf) = view.length := by
  have hlen : (keyedPairs cols view rf cf).length = view.length := by
    apply length_filterMap_of_all_some
    intro r hr
    obtain ⟨h1, h2⟩ := h r hr
    obtain ⟨a, ha⟩ := Option.isSome_iff_exists.mp h1
    obtain ⟨b, hb⟩ := Option.isSome_iff_exists.mp h2
    rw [ha, hb]
    rfl
  calc cellSum (pivotCount cols view rf cf)
      = ((((keyedPairs cols view rf cf).map Prod.fst).dedup).map (fun a =>
          ((((keyedPairs cols view rf cf).map Prod.snd).dedup).map (fun b =>
            (if (keyedPairs cols view rf cf).countP
                  (fun p => decide (p = (a, b))) = 0 then (none : Option Nat)
             else some ((keyedPairs cols view rf cf).countP
               (fun p => decide (p = (a, b))))).getD 0)).sum)).sum := by
        unfold pivotCount cellSum
        rw [List.map_flatten, List.sum_flatten]
        apply congrArg List.sum
        rw [List.map_map, List.map_map]
        apply List.map_congr_left
        intro a _
        simp only [Function.comp_def, List.map_map]
    _ = ((((keyedPairs cols view rf cf).map Prod.fst).dedup).map (fun a =>
          ((keyedPairs cols view rf cf).filter
            (fun p => decide (p.1 = a))).length)).sum :=
        congrArg List.sum
          (List.map_congr_left (fun a _ => pivot_inner_sum_eq _ a))
    _ = (keyedPairs cols view rf cf).length := pivot_outer_sum_eq _
    _ = view.length := hlen

/-! ## The scenario slider seeding -/

def exScenRow : Row :=
  [some (Value.str "Real-World Scenario"), some (Value.str "Loan-to-Income Ratio"),
   some (Value.num 135), some (Value.str "High")]

def exScenD : Dataset :=
  ⟨["Component", "Risk Factor", "Risk Score Contribution (%)", "Correlation"],
   [exScenRow]⟩

def exScenRow40 : Row :=
  [some (Value.str "Real-World Scenario"), some (Value.str "Loan-to-Income Ratio"),
   some (Value.num 40), some (Value.str "High")]

def exScenD40 : Dataset :=
  ⟨["Component", "Risk Factor", "Risk Score Contribution (%)", "Correlation"],
   [exScenRow40]⟩

/-- C3 counterexample: a dataset whose Real-World Scenario record has a
default contribution of 135 seeds its slider with the value 135 itself —
`int(default)` is handed to the widget unclamped, not 100, and 135 lies
outside [0, 100]. (The widget's `min_value=0, max_value=100` contract is
violated rather than enforced by clamping.) -/
theorem slider_seed_135_not_clamped :
    scenarioSeeds exScenD
      = .ok [(some (Value.str "Loan-to-Income Ratio"), some 135)] ∧
    ¬ ((135 : Int) ≤ 100) :=
  ⟨by rfl, by decide⟩

/-- C3 (amended): the seeded slider value is `int(default)` with no
clamping applied; whenever the dataset's default contribution lies in
[0, 100], so does the seed. (A default outside [0, 100] is passed
through out of range, violating the slider's [0, 100] contract instead
of being clamped.) -/
theorem sliderSeeds_id_within_range (cols : List String) (view : List Row)
    (hq : ∀ r ∈ view, ∃ q : Rat,
      getCell cols r "Risk Score Contribution (%)" = some (Value.num q) ∧
      0 ≤ q ∧ q ≤ 100) :
    ∀ p ∈ sliderSeeds cols view, ∃ q : Rat,
      p.2 = some (pyInt q) ∧ 0 ≤ pyInt q ∧ pyInt q ≤ 100 := by
  intro p hp
  unfold sliderSeeds at hp
  obtain ⟨r, hr, hpr⟩ := List.mem_map.mp hp
  obtain ⟨q, hcell, hq0, hq100⟩ := hq r hr
  have hfloor : pyInt q = ⌊q⌋ := by
    unfold pyInt
    rw [if_neg (not_lt.mpr hq0)]
  refine ⟨q, ?_, ?_, ?_⟩
  · rw [← hpr]
    simp [hcell, intOfCell]
  · rw [hfloor]
    exact Int.floor_nonneg.mpr hq0
  · rw [hfloor]
    have h100 : ⌊(100 : Rat)⌋ = 100 := by
      rw [show (100 : Rat) = ((100 : Int) : Rat) by norm_num, Int.floor_intCast]
    calc ⌊q⌋ ≤ ⌊(100 : Rat)⌋ := Int.floor_le_floor hq100
      _ = 100 := h100

theorem sliderSeeds_id_within_range_witness :
    ∃ q : Rat,
      ((some (Value.str "Loan-to-Income Ratio"), some (40 : Int)) :
          Option Value × Option Int).2 = some (pyInt q) ∧
      0 ≤ pyInt q ∧ pyInt q ≤ 100 :=
  sliderSeeds_id_within_range exScenD40.cols [exScenRow40]
    (by
      intro r hr
      rw [List.mem_singleton.mp hr]
      exact ⟨40, by rfl, by norm_num, by norm_num⟩)
    (some (Value.str "Loan-to-Income Ratio"), some (40 : Int))
    (by decide)

theorem pivotCount_cellSum_eq_length_witness :
    cellSum (pivotCount exPivotD.cols exPivotD.rows "Risk Factor" "Correlation")
      = exPivotD.rows.length :=
  pivotCount_cellSum_eq_length exPivotD.cols exPivotD.rows
    "Risk Factor" "Correlation" (by decide)

theorem pie_labels_sizes_aligned_witness :
    ∃ ls ss, pieLabels exD = .ok ls ∧ pieSizes exD = .ok ss ∧
      ls.length = ([exR0] : List Row).length ∧ ss.length = ([exR0] : List Row).length ∧
      ∀ i : Nat, ls[i]? = (([exR0] : List Row)[i]?).map (fun r => getCell exD.cols r "Source") ∧
        ss[i]? = (([exR0] : List Row)[i]?).map
          (fun r => getCell exD.cols r "Percentage Contribution (%)") :=
  pie_labels_sizes_aligned exD [exR0] (by rfl)
